import Mathlib

/-!
Shallow embedding of `setup.py` from the zubax_serial_updater repository.

The script is a cx_Freeze build descriptor.  Its behaviour depends on two
external inputs, which we model as parameters:
  * `platform`  — the value of `sys.platform`;
  * `binaries`  — the list returned by `glob.glob('*.bin')` in the working
                  directory.
Everything else in the script is a straight-line assembly of configuration
records followed by a single call to `setup(...)`.  We embed the run of the
script as a function returning `Except String SetupConfig`: the `Exception`
raised when no binaries are found becomes the `error` branch, and the
argument record handed to `setup(...)` becomes the `ok` branch.
-/

namespace ZubaxSetup

/-- Embedding of line 11: `base = 'Win32GUI' if sys.platform == 'win32' else None`. -/
def base (platform : String) : Option String :=
  if platform = "win32" then some "Win32GUI" else none

/-- The `build_exe_options` dict (lines 17-21 of `setup.py`). -/
structure BuildExeOptions where
  packages : List String
  include_msvcr : Bool
  include_files : List String
deriving Repr, DecidableEq

/-- The `bdist_msi_options` dict (lines 23-25 of `setup.py`). -/
structure BdistMsiOptions where
  initial_target_dir : String
deriving Repr, DecidableEq

/-- One `Executable(...)` value (lines 40-44 of `setup.py`). -/
structure Executable where
  script : String
  base : Option String
  icon : String
  shortcutName : String
  shortcutDir : String
deriving Repr, DecidableEq

/-- The full argument record passed to `setup(...)` (lines 27-45 of `setup.py`). -/
structure SetupConfig where
  name : String
  version : String
  description : String
  requires : List String
  author : String
  author_email : String
  url : String
  license : String
  build_exe : BuildExeOptions
  bdist_msi : BdistMsiOptions
  executables : List Executable
deriving Repr, DecidableEq

/-- The configuration assembled by the script when the guard passes:
`build_exe_options`, `bdist_msi_options` and the keyword arguments of the
`setup(...)` call, transcribed literally from lines 17-45 of `setup.py`. -/
def mkConfig (platform : String) (binaries : List String) : SetupConfig :=
  { name := "zubax_serial_updater"
    version := "1.0"
    description := "Zubax serial firmware updater"
    requires := ["serial"]
    author := "Pavel Kirienko"
    author_email := "pavel.kirienko@zubax.com"
    url := "http://zubax.com"
    license := "MIT"
    build_exe :=
      { packages := ["serial", "tkinter"]
        include_msvcr := true
        include_files := binaries }
    bdist_msi :=
      { initial_target_dir := "[ProgramFilesFolder]\\Zubax\\serial_updater" }
    executables :=
      [{ script := "zubax_serial_updater"
         base := base platform
         icon := "icon.ico"
         shortcutName := "Zubax Serial Updater"
         shortcutDir := "ProgramMenuFolder" }] }

/-- Running the descriptor (lines 13-45 of `setup.py`): after the glob, the
guard `if len(binaries) == 0: raise Exception('Could not find binaries')`
either aborts the run or the script proceeds unconditionally to the
`setup(...)` call with the assembled configuration. -/
def runDescriptor (platform : String) (binaries : List String) :
    Except String SetupConfig :=
  if binaries.length = 0 then
    Except.error "Could not find binaries"
  else
    Except.ok (mkConfig platform binaries)

/-- Claim C1: with zero matched binaries the descriptor raises the fatal
"Could not find binaries" error and `setup` is never reached; and whenever
`setup` is reached, the include-files payload passed onward is non-empty. -/
theorem C1_empty_glob_aborts :
    (∀ platform : String,
        runDescriptor platform [] = Except.error "Could not find binaries") ∧
    (∀ (platform : String) (binaries : List String) (cfg : SetupConfig),
        runDescriptor platform binaries = Except.ok cfg →
        cfg.build_exe.include_files ≠ []) := by
  constructor
  · intro platform
    rfl
  · intro platform binaries cfg h
    unfold runDescriptor at h
    by_cases hb : binaries.length = 0
    · simp [hb] at h
    · simp [hb] at h
      subst h
      simpa [mkConfig, List.length_eq_zero] using hb

/-- Witness for C1 at the concrete run on `["firmware_v1.bin"]`. -/
theorem C1_empty_glob_aborts_witness :
    (mkConfig "linux" ["firmware_v1.bin"]).build_exe.include_files ≠ [] :=
  C1_empty_glob_aborts.2 "linux" ["firmware_v1.bin"] _ rfl

/-- Claim C2: whenever the guard passes, the include-files list in the build
options record is exactly the glob result — no omissions, no duplicates, no
extras. -/
theorem C2_include_files_exact :
    ∀ (platform : String) (binaries : List String) (cfg : SetupConfig),
      runDescriptor platform binaries = Except.ok cfg →
      cfg.build_exe.include_files = binaries := by
  intro platform binaries cfg h
  unfold runDescriptor at h
  by_cases hb : binaries.length = 0
  · simp [hb] at h
  · simp [hb] at h
    subst h
    rfl

/-- Witness for C2 at the concrete run on `["a.bin", "b.bin"]`. -/
theorem C2_include_files_exact_witness :
    (mkConfig "win32" ["a.bin", "b.bin"]).build_exe.include_files
      = ["a.bin", "b.bin"] :=
  C2_include_files_exact "win32" ["a.bin", "b.bin"] _ rfl

/-- Claim C3: subsystem selection is a pure function of the platform
identifier: `win32` yields `Win32GUI`, every other identifier yields `None`. -/
theorem C3_base_selection :
    base "win32" = some "Win32GUI" ∧
    (∀ platform : String, platform ≠ "win32" → base platform = none) := by
  constructor
  · rfl
  · intro platform h
    simp [base, h]

/-- Witness for C3 at the concrete platform `linux`. -/
theorem C3_base_selection_witness : base "linux" = none :=
  C3_base_selection.2 "linux" (by decide)

/-- Claim C4: for every platform and every payload that passes the guard, the
bundled-packages dependency list of the assembled configuration is exactly the
two fixed names: the serial library and the tkinter GUI toolkit. -/
theorem C4_fixed_packages :
    ∀ (platform : String) (binaries : List String) (cfg : SetupConfig),
      runDescriptor platform binaries = Except.ok cfg →
      cfg.build_exe.packages = ["serial", "tkinter"] := by
  intro platform binaries cfg h
  unfold runDescriptor at h
  by_cases hb : binaries.length = 0
  · simp [hb] at h
  · simp [hb] at h
    subst h
    rfl

/-- Witness for C4 at the concrete run on `["fw.bin"]`. -/
theorem C4_fixed_packages_witness :
    (mkConfig "darwin" ["fw.bin"]).build_exe.packages = ["serial", "tkinter"] :=
  C4_fixed_packages "darwin" ["fw.bin"] _ rfl

/-- Claim C5: when the glob matches exactly `firmware_v1.bin`, the descriptor
does not raise and the include-files list is exactly `["firmware_v1.bin"]`. -/
theorem C5_single_firmware :
    ∀ platform : String,
      ∃ cfg : SetupConfig,
        runDescriptor platform ["firmware_v1.bin"] = Except.ok cfg ∧
        cfg.build_exe.include_files = ["firmware_v1.bin"] := by
  intro platform
  exact ⟨mkConfig platform ["firmware_v1.bin"], rfl, rfl⟩

/-- Claim C6: the empty-payload guard is the only failure path: every error
produced by the descriptor is the "Could not find binaries" abort on an empty
glob, and with at least one matched binary the run reaches `setup`
unconditionally. -/
theorem C6_only_failure_path :
    (∀ (platform : String) (binaries : List String) (e : String),
        runDescriptor platform binaries = Except.error e →
        binaries = [] ∧ e = "Could not find binaries") ∧
    (∀ (platform : String) (binaries : List String),
        binaries ≠ [] →
        ∃ cfg : SetupConfig,
          runDescriptor platform binaries = Except.ok cfg) := by
  constructor
  · intro platform binaries e h
    unfold runDescriptor at h
    by_cases hb : binaries.length = 0
    · simp [hb] at h
      exact ⟨List.length_eq_zero.mp hb, h.symm⟩
    · simp [hb] at h
  · intro platform binaries h
    refine ⟨mkConfig platform binaries, ?_⟩
    unfold runDescriptor
    simp [List.length_eq_zero, h]

/-- Witness for C6 at concrete runs. -/
theorem C6_only_failure_path_witness :
    (([] : List String) = [] ∧
       "Could not find binaries" = "Could not find binaries") ∧
    ∃ cfg : SetupConfig,
      runDescriptor "win32" ["fw.bin"] = Except.ok cfg :=
  ⟨C6_only_failure_path.1 "win32" [] "Could not find binaries" rfl,
   C6_only_failure_path.2 "win32" ["fw.bin"] (by decide)⟩

/-- Claim C7: whenever the guard passes, the installer options record sets the
initial target directory to the fixed vendor template, independent of
platform and payload. -/
theorem C7_installer_target_dir :
    ∀ (platform : String) (binaries : List String) (cfg : SetupConfig),
      runDescriptor platform binaries = Except.ok cfg →
      cfg.bdist_msi.initial_target_dir
        = "[ProgramFilesFolder]\\Zubax\\serial_updater" := by
  intro platform binaries cfg h
  unfold runDescriptor at h
  by_cases hb : binaries.length = 0
  · simp [hb] at h
  · simp [hb] at h
    subst h
    rfl

/-- Witness for C7 at the concrete run on `["fw.bin"]`. -/
theorem C7_installer_target_dir_witness :
    (mkConfig "linux" ["fw.bin"]).bdist_msi.initial_target_dir
      = "[ProgramFilesFolder]\\Zubax\\serial_updater" :=
  C7_installer_target_dir "linux" ["fw.bin"] _ rfl

/-- Claim C8: the build options record always sets `include_msvcr` to true,
for every platform and payload; it is not conditioned on the platform check. -/
theorem C8_include_msvcr_always :
    ∀ (platform : String) (binaries : List String) (cfg : SetupConfig),
      runDescriptor platform binaries = Except.ok cfg →
      cfg.build_exe.include_msvcr = true := by
  intro platform binaries cfg h
  unfold runDescriptor at h
  by_cases hb : binaries.length = 0
  · simp [hb] at h
  · simp [hb] at h
    subst h
    rfl

/-- Witness for C8 at the concrete run on a non-Windows platform. -/
theorem C8_include_msvcr_always_witness :
    (mkConfig "linux" ["fw.bin"]).build_exe.include_msvcr = true :=
  C8_include_msvcr_always "linux" ["fw.bin"] _ rfl

/-- Claim C9: the metadata `requires` list passed to `setup` is exactly
`["serial"]`; the tkinter toolkit appears in the bundled packages list but
never in the declared metadata requirements. -/
theorem C9_requires_serial_only :
    ∀ (platform : String) (binaries : List String) (cfg : SetupConfig),
      runDescriptor platform binaries = Except.ok cfg →
      cfg.requires = ["serial"] ∧
      "tkinter" ∈ cfg.build_exe.packages ∧
      "tkinter" ∉ cfg.requires := by
  intro platform binaries cfg h
  unfold runDescriptor at h
  by_cases hb : binaries.length = 0
  · simp [hb] at h
  · simp [hb] at h
    subst h
    refine ⟨rfl, ?_, ?_⟩
    · simp [mkConfig]
    · simp [mkConfig]

/-- Witness for C9 at the concrete run on `["fw.bin"]`. -/
theorem C9_requires_serial_only_witness :
    (mkConfig "win32" ["fw.bin"]).requires = ["serial"] ∧
    "tkinter" ∈ (mkConfig "win32" ["fw.bin"]).build_exe.packages ∧
    "tkinter" ∉ (mkConfig "win32" ["fw.bin"]).requires :=
  C9_requires_serial_only "win32" ["fw.bin"] _ rfl

/-- Claim C10: whenever the guard passes, the executables list has exactly one
entry whose fields are the fixed constants, with `base` equal to the
platform-selected subsystem tag. -/
theorem C10_single_executable :
    ∀ (platform : String) (binaries : List String) (cfg : SetupConfig),
      runDescriptor platform binaries = Except.ok cfg →
      cfg.executables
        = [{ script := "zubax_serial_updater"
             base := base platform
             icon := "icon.ico"
             shortcutName := "Zubax Serial Updater"
             shortcutDir := "ProgramMenuFolder" }] := by
  intro platform binaries cfg h
  unfold runDescriptor at h
  by_cases hb : binaries.length = 0
  · simp [hb] at h
  · simp [hb] at h
    subst h
    rfl

/-- Witness for C10 at the concrete run on `win32`. -/
theorem C10_single_executable_witness :
    (mkConfig "win32" ["fw.bin"]).executables
      = [{ script := "zubax_serial_updater"
           base := some "Win32GUI"
           icon := "icon.ico"
           shortcutName := "Zubax Serial Updater"
           shortcutDir := "ProgramMenuFolder" }] :=
  C10_single_executable "win32" ["fw.bin"] _ rfl

end ZubaxSetup
